import Mathlib

/-!
Shallow embedding of the windows_exporter AD FS domain collector
(`internal/collector/adfs/adfs.go`) together with spec-modelled
fragments of the typed performance-counter acquisition layer
(`internal/pdh`) and the collector scheduler, which are referenced by
the source but whose code is not part of this excerpt.

Go `float64` counter values are modelled as exact rationals (`ℚ`);
Go `error` values built by `fmt.Errorf("...: %w", err)` wrapping are
modelled by the `GoErr` inductive, with `GoErr.isNoData` playing the
role of `errors.Is(err, NoDataError)`.
-/

/-- Go-style error values as used by the collector: sentinel errors
(`types.ErrNoDataUnexpected`, the pdh decode-invariant error, OS-reported
failures) plus `fmt.Errorf("msg: %w", inner)` wrapping. -/
inductive GoErr where
  | noData : GoErr
  | decodeError : GoErr
  | osError : String → GoErr
  | wrap : String → GoErr → GoErr
deriving Repr, DecidableEq

/-- `errors.Is(e, NoDataError)`: the error is, or wraps, the no-data sentinel. -/
def GoErr.isNoData : GoErr → Bool
  | .noData => true
  | .wrap _ e => e.isNoData
  | _ => false

namespace Pdh

/-- Response of the native OS decode call for a given requested buffer size:
either the decoded per-instance records, a "buffer too small" report carrying
the required size, or some other OS error. -/
inductive OsResp (α : Type) where
  | ok : List α → OsResp α
  | tooSmall : Nat → OsResp α
  | err : String → OsResp α

/-- Modelled from the spec: the Buffer Negotiator of the typed acquisition
layer (`internal/pdh`, not part of this excerpt). It requests the decode with
the buffer size cached from the previous call; on a "buffer too small" report
it reallocates to exactly the OS-declared required size and retries once; a
second "too small" response is a fatal `DecodeError`. The second component
counts the decode attempts actually issued. -/
def negotiateWithCount {α : Type} (env : Nat → OsResp α) (bufSize : Nat) :
    Except GoErr (List α × Nat) × Nat :=
  match env bufSize with
  | .ok rs => (.ok (rs, bufSize), 1)
  | .err m => (.error (.osError m), 1)
  | .tooSmall req =>
    match env req with
    | .ok rs => (.ok (rs, req), 2)
    | .err m => (.error (.osError m), 2)
    | .tooSmall _ => (.error .decodeError, 2)

/-- The buffer negotiation result, without the attempt count. -/
def negotiate {α : Type} (env : Nat → OsResp α) (bufSize : Nat) :
    Except GoErr (List α × Nat) :=
  (negotiateWithCount env bufSize).1

/-- The raw-vs-formatted value convention under which a typed collector
subscribes its counters (`pdh.CounterTypeRaw` / `pdh.CounterTypeFormatted`). -/
inductive CounterType where
  | raw
  | formatted
deriving Repr, DecidableEq

/-- Modelled from the spec: the state of a `pdh.Collector` (typed collector,
`internal/pdh`, not part of this excerpt): the counter object it subscribed,
the value convention, an exclusively owned query handle and the cached
buffer size of the last successful negotiation. `releases` counts how often
the query handle has been released, to state the "never double-release"
property. -/
structure Collector where
  counterType : CounterType := .raw
  object : String := ""
  handleOpen : Bool := true
  releases : Nat := 0
  bufSize : Nat := 0
deriving Repr, DecidableEq

/-- Modelled from the spec: `pdh.NewCollector` opens the query, builds the
counter paths for the object and adds the subscriptions; `osRes` is the
outcome of that OS interaction (for example `CounterObjectUnavailable` when
the object does not exist on the host). -/
def NewCollector (ct : CounterType) (object : String) (osRes : Except String Unit) :
    Except String Collector :=
  match osRes with
  | .error e => .error e
  | .ok _ => .ok { counterType := ct, object := object }

/-- Modelled from the spec: `pdh.Collector.Collect` — negotiate the buffer,
decode the typed records, cache the successful buffer size, and return
`NoDataError` when zero records are produced. -/
def Collector.collect {α : Type} (p : Collector) (env : Nat → OsResp α) :
    Collector × Except GoErr (List α) :=
  match negotiate env p.bufSize with
  | .error e => (p, .error e)
  | .ok (rs, newSize) =>
    if rs.isEmpty then
      ({ p with bufSize := newSize }, .error .noData)
    else
      ({ p with bufSize := newSize }, .ok rs)

/-- Modelled from the spec: `pdh.Collector.Close` — releases the query handle
when it is still open and is a no-op otherwise, so the handle is never
released twice. -/
def Collector.close (p : Collector) : Collector :=
  if p.handleOpen then { p with handleOpen := false, releases := p.releases + 1 } else p

/-- Modelled from the spec: a Go method call on a possibly-nil
`*pdh.Collector` receiver — `Close` on a nil receiver (no prior `Build`)
is a no-op. -/
def closeOpt : Option Collector → Option Collector
  | none => none
  | some p => some p.close

end Pdh

namespace Scheduler

/-- Modelled from the spec: one registered domain collector in a scrape
round, with the outcome its `Collect` produced this round (`μ` is the type
of protocol-level metric records). -/
structure DomainResult (μ : Type) where
  name : String
  result : Except String (List μ)

/-- Modelled from the spec: the aggregated outcome of one scrape round. -/
structure ScrapeOutcome (μ : Type) where
  metrics : List μ
  failures : List (String × String)
  scrapeSuccess : Bool

/-- Modelled from the spec: the Collector Registry and Scheduler / Scrape
Aggregator (not part of this excerpt). Metrics from successful collectors are
merged in registration order; a collector returning an error is recorded as a
per-round failure with its reason; the scrape as a whole still succeeds. -/
def scrape {μ : Type} (cs : List (DomainResult μ)) : ScrapeOutcome μ :=
  { metrics := cs.foldr (fun c acc =>
      match c.result with
      | .ok ms => ms ++ acc
      | .error _ => acc) []
    failures := cs.filterMap (fun c =>
      match c.result with
      | .error r => some (c.name, r)
      | .ok _ => none)
    scrapeSuccess := true }

end Scheduler

namespace prometheus

/-- A metric descriptor as produced by `prometheus.NewDesc` (external metrics
library): the stable fully-qualified metric name and its help string (the
AD FS collector passes nil labels, which are omitted here). -/
structure Desc where
  fqName : String
  help : String
deriving Repr, DecidableEq

/-- The metric type tag of the exposition format. -/
inductive ValueType where
  | counter
  | gauge
deriving Repr, DecidableEq

/-- A protocol-level constant metric record as produced by
`prometheus.MustNewConstMetric`: descriptor, type tag and numeric sample.
The descriptor is optional because the Go descriptor fields are pointers
that are nil until `Build` assigns them. -/
structure Metric where
  desc : Option Desc
  valueType : ValueType
  value : ℚ
deriving Repr, DecidableEq

/-- Modelled from the spec: `prometheus.BuildFQName` of the external metrics
library joins non-empty namespace, subsystem and name parts with
underscores into the stable fully-qualified metric name. -/
def BuildFQName (ns sub nm : String) : String :=
  if nm = "" then ""
  else if ns ≠ "" ∧ sub ≠ "" then ns ++ "_" ++ sub ++ "_" ++ nm
  else if ns ≠ "" then ns ++ "_" ++ nm
  else if sub ≠ "" then sub ++ "_" ++ nm
  else nm

/-- `prometheus.NewDesc` with nil constant and variable labels. -/
def NewDesc (fqName help : String) : Desc :=
  ⟨fqName, help⟩

/-- `prometheus.MustNewConstMetric`: builds the constant metric record. -/
def MustNewConstMetric (d : Option Desc) (vt : ValueType) (v : ℚ) : Metric :=
  ⟨d, vt, v⟩

end prometheus

namespace types

/-- Modelled from the spec: `types.Namespace` (`internal/types`, not part of
this excerpt), the common metric namespace prefix; the spec's scenario names
the AD FS metric `windows_adfs_passive_requests_total`. -/
def Namespace : String := "windows"

/-- Modelled from the spec: `types.ErrNoDataUnexpected` (`internal/types`,
not part of this excerpt), the no-data sentinel error. -/
def ErrNoDataUnexpected : GoErr := .noData

end types

namespace adfs

/-- `const Name = "adfs"` -/
def Name : String := "adfs"

/-- `type Config struct{}` -/
structure Config where
deriving Repr, DecidableEq

/-- `var ConfigDefaults = Config{}` -/
def ConfigDefaults : Config := {}

/-- The typed record of the "AD FS" counter object (`perfDataCounterValues`,
declared in the collector package; one field per counter, `float64` values
modelled as `ℚ`, zero-valued by default like Go zero values). -/
structure perfDataCounterValues where
  AdLoginConnectionFailures : ℚ := 0
  CertificateAuthentications : ℚ := 0
  DeviceAuthentications : ℚ := 0
  ExtranetAccountLockouts : ℚ := 0
  FederatedAuthentications : ℚ := 0
  PassportAuthentications : ℚ := 0
  PassiveRequests : ℚ := 0
  PasswordChangeFailed : ℚ := 0
  PasswordChangeSucceeded : ℚ := 0
  TokenRequests : ℚ := 0
  WindowsIntegratedAuthentications : ℚ := 0
  OAuthAuthZRequests : ℚ := 0
  OAuthClientAuthentications : ℚ := 0
  OAuthClientAuthenticationFailures : ℚ := 0
  OAuthClientCredentialRequestFailures : ℚ := 0
  OAuthClientCredentialRequests : ℚ := 0
  OAuthClientPrivateKeyJWTAuthenticationFailures : ℚ := 0
  OAuthClientPrivateKeyJWTAuthentications : ℚ := 0
  OAuthClientBasicAuthenticationFailures : ℚ := 0
  OAuthClientBasicAuthentications : ℚ := 0
  OAuthClientSecretPostAuthenticationFailures : ℚ := 0
  OAuthClientSecretPostAuthentications : ℚ := 0
  OAuthClientWindowsAuthenticationFailures : ℚ := 0
  OAuthClientWindowsAuthentications : ℚ := 0
  OAuthLogonCertRequestFailures : ℚ := 0
  OAuthLogonCertTokenRequests : ℚ := 0
  OAuthPasswordGrantRequestFailures : ℚ := 0
  OAuthPasswordGrantRequests : ℚ := 0
  OAuthTokenRequests : ℚ := 0
  SamlPTokenRequests : ℚ := 0
  SsoAuthenticationFailures : ℚ := 0
  SsoAuthentications : ℚ := 0
  WsFedTokenRequests : ℚ := 0
  WsTrustTokenRequests : ℚ := 0
  UsernamePasswordAuthenticationFailures : ℚ := 0
  UsernamePasswordAuthentications : ℚ := 0
  ExternalAuthNFailures : ℚ := 0
  ExternalAuthentications : ℚ := 0
  ArtifactDBFailures : ℚ := 0
  AvgArtifactDBQueryTime : ℚ := 0
  ConfigDBFailures : ℚ := 0
  AvgConfigDBQueryTime : ℚ := 0
  FederationMetadataRequests : ℚ := 0

/-- The AD FS domain collector state (`type Collector struct`): the config,
the typed perf-data collector (a nil pointer until `Build`), the decoded
record slice, and one descriptor pointer per emitted metric, in source
declaration order (all nil until `Build`). -/
structure Collector where
  config : Config
  perfDataCollector : Option Pdh.Collector := none
  perfDataObject : List perfDataCounterValues := []
  adLoginConnectionFailures : Option prometheus.Desc := none
  artifactDBFailures : Option prometheus.Desc := none
  avgArtifactDBQueryTime : Option prometheus.Desc := none
  avgConfigDBQueryTime : Option prometheus.Desc := none
  certificateAuthentications : Option prometheus.Desc := none
  configDBFailures : Option prometheus.Desc := none
  deviceAuthentications : Option prometheus.Desc := none
  externalAuthenticationFailures : Option prometheus.Desc := none
  externalAuthentications : Option prometheus.Desc := none
  extranetAccountLockouts : Option prometheus.Desc := none
  federatedAuthentications : Option prometheus.Desc := none
  federationMetadataRequests : Option prometheus.Desc := none
  oAuthAuthZRequests : Option prometheus.Desc := none
  oAuthClientAuthentications : Option prometheus.Desc := none
  oAuthClientAuthenticationsFailures : Option prometheus.Desc := none
  oAuthClientCredentialsRequestFailures : Option prometheus.Desc := none
  oAuthClientCredentialsRequests : Option prometheus.Desc := none
  oAuthClientPrivateKeyJwtAuthenticationFailures : Option prometheus.Desc := none
  oAuthClientPrivateKeyJwtAuthentications : Option prometheus.Desc := none
  oAuthClientSecretBasicAuthenticationFailures : Option prometheus.Desc := none
  oAuthClientSecretBasicAuthentications : Option prometheus.Desc := none
  oAuthClientSecretPostAuthenticationFailures : Option prometheus.Desc := none
  oAuthClientSecretPostAuthentications : Option prometheus.Desc := none
  oAuthClientWindowsIntegratedAuthenticationFailures : Option prometheus.Desc := none
  oAuthClientWindowsIntegratedAuthentications : Option prometheus.Desc := none
  oAuthLogonCertificateRequestFailures : Option prometheus.Desc := none
  oAuthLogonCertificateTokenRequests : Option prometheus.Desc := none
  oAuthPasswordGrantRequestFailures : Option prometheus.Desc := none
  oAuthPasswordGrantRequests : Option prometheus.Desc := none
  oAuthTokenRequests : Option prometheus.Desc := none
  passiveRequests : Option prometheus.Desc := none
  passportAuthentications : Option prometheus.Desc := none
  passwordChangeFailed : Option prometheus.Desc := none
  passwordChangeSucceeded : Option prometheus.Desc := none
  samlPTokenRequests : Option prometheus.Desc := none
  ssoAuthenticationFailures : Option prometheus.Desc := none
  ssoAuthentications : Option prometheus.Desc := none
  tokenRequests : Option prometheus.Desc := none
  upAuthenticationFailures : Option prometheus.Desc := none
  upAuthentications : Option prometheus.Desc := none
  windowsIntegratedAuthentications : Option prometheus.Desc := none
  wsFedTokenRequests : Option prometheus.Desc := none
  wsTrustTokenRequests : Option prometheus.Desc := none

/-- `func New(config *Config) *Collector`: pure construction; a nil config
pointer falls back to `ConfigDefaults`; everything else stays at the Go
zero value until `Build`. -/
def New (config : Option Config) : Collector :=
  { config := config.getD ConfigDefaults }

end adfs

namespace adfs

/-- `func (c *Collector) GetName() string` -/
def Collector.GetName (_ : Collector) : String := Name

/-- `func (c *Collector) Build(...) error`: assigns every metric descriptor
via `prometheus.NewDesc (BuildFQName types.Namespace Name suffix) help`, then
creates the typed perf-data collector via
`pdh.NewCollector[perfDataCounterValues](pdh.CounterTypeRaw, "AD FS", nil)`.
`osRes` is the outcome of the OS interaction inside `pdh.NewCollector`; on
failure the wrapped error is returned and the perf-data collector stays
nil. -/
def Collector.Build (c : Collector) (osRes : Except String Unit) :
    Collector × Option GoErr :=
  let c :=
    { c with
      adLoginConnectionFailures := some (prometheus.NewDesc
        (prometheus.BuildFQName types.Namespace Name "ad_login_connection_failures_total")
        "Total number of connection failures to an Active Directory domain controller")
      certificateAuthentications := some (prometheus.NewDesc
        (prometheus.BuildFQName types.Namespace Name "certificate_authentications_total")
        "Total number of User Certificate authentications")
      deviceAuthentications := some (prometheus.NewDesc
        (prometheus.BuildFQName types.Namespace Name "device_authentications_total")
        "Total number of Device authentications")
      extranetAccountLockouts := some (prometheus.NewDesc
        (prometheus.BuildFQName types.Namespace Name "extranet_account_lockouts_total")
        "Total number of Extranet Account Lockouts")
      federatedAuthentications := some (prometheus.NewDesc
        (prometheus.BuildFQName types.Namespace Name "federated_authentications_total")
        "Total number of authentications from a federated source")
      passportAuthentications := some (prometheus.NewDesc
        (prometheus.BuildFQName types.Namespace Name "passport_authentications_total")
        "Total number of Microsoft Passport SSO authentications")
      passiveRequests := some (prometheus.NewDesc
        (prometheus.BuildFQName types.Namespace Name "passive_requests_total")
        "Total number of passive (browser-based) requests")
      passwordChangeFailed := some (prometheus.NewDesc
        (prometheus.BuildFQName types.Namespace Name "password_change_failed_total")
        "Total number of failed password changes")
      passwordChangeSucceeded := some (prometheus.NewDesc
        (prometheus.BuildFQName types.Namespace Name "password_change_succeeded_total")
        "Total number of successful password changes")
      tokenRequests := some (prometheus.NewDesc
        (prometheus.BuildFQName types.Namespace Name "token_requests_total")
        "Total number of token requests")
      windowsIntegratedAuthentications := some (prometheus.NewDesc
        (prometheus.BuildFQName types.Namespace Name "windows_integrated_authentications_total")
        "Total number of Windows integrated authentications (Kerberos/NTLM)")
      oAuthAuthZRequests := some (prometheus.NewDesc
        (prometheus.BuildFQName types.Namespace Name "oauth_authorization_requests_total")
        "Total number of incoming requests to the OAuth Authorization endpoint")
      oAuthClientAuthentications := some (prometheus.NewDesc
        (prometheus.BuildFQName types.Namespace Name "oauth_client_authentication_success_total")
        "Total number of successful OAuth client Authentications")
      oAuthClientAuthenticationsFailures := some (prometheus.NewDesc
        (prometheus.BuildFQName types.Namespace Name "oauth_client_authentication_failure_total")
        "Total number of failed OAuth client Authentications")
      oAuthClientCredentialsRequestFailures := some (prometheus.NewDesc
        (prometheus.BuildFQName types.Namespace Name "oauth_client_credentials_failure_total")
        "Total number of failed OAuth Client Credentials Requests")
      oAuthClientCredentialsRequests := some (prometheus.NewDesc
        (prometheus.BuildFQName types.Namespace Name "oauth_client_credentials_success_total")
        "Total number of successful RP tokens issued for OAuth Client Credentials Requests")
      oAuthClientPrivateKeyJwtAuthenticationFailures := some (prometheus.NewDesc
        (prometheus.BuildFQName types.Namespace Name "oauth_client_privkey_jwt_authentication_failure_total")
        "Total number of failed OAuth Client Private Key Jwt Authentications")
      oAuthClientPrivateKeyJwtAuthentications := some (prometheus.NewDesc
        (prometheus.BuildFQName types.Namespace Name "oauth_client_privkey_jwt_authentications_success_total")
        "Total number of successful OAuth Client Private Key Jwt Authentications")
      oAuthClientSecretBasicAuthenticationFailures := some (prometheus.NewDesc
        (prometheus.BuildFQName types.Namespace Name "oauth_client_secret_basic_authentications_failure_total")
        "Total number of failed OAuth Client Secret Basic Authentications")
      oAuthClientSecretBasicAuthentications := some (prometheus.NewDesc
        (prometheus.BuildFQName types.Namespace Name "oauth_client_secret_basic_authentications_success_total")
        "Total number of successful OAuth Client Secret Basic Authentications")
      oAuthClientSecretPostAuthenticationFailures := some (prometheus.NewDesc
        (prometheus.BuildFQName types.Namespace Name "oauth_client_secret_post_authentications_failure_total")
        "Total number of failed OAuth Client Secret Post Authentications")
      oAuthClientSecretPostAuthentications := some (prometheus.NewDesc
        (prometheus.BuildFQName types.Namespace Name "oauth_client_secret_post_authentications_success_total")
        "Total number of successful OAuth Client Secret Post Authentications")
      oAuthClientWindowsIntegratedAuthenticationFailures := some (prometheus.NewDesc
        (prometheus.BuildFQName types.Namespace Name "oauth_client_windows_authentications_failure_total")
        "Total number of failed OAuth Client Windows Integrated Authentications")
      oAuthClientWindowsIntegratedAuthentications := some (prometheus.NewDesc
        (prometheus.BuildFQName types.Namespace Name "oauth_client_windows_authentications_success_total")
        "Total number of successful OAuth Client Windows Integrated Authentications")
      oAuthLogonCertificateRequestFailures := some (prometheus.NewDesc
        (prometheus.BuildFQName types.Namespace Name "oauth_logon_certificate_requests_failure_total")
        "Total number of failed OAuth Logon Certificate Requests")
      oAuthLogonCertificateTokenRequests := some (prometheus.NewDesc
        (prometheus.BuildFQName types.Namespace Name "oauth_logon_certificate_token_requests_success_total")
        "Total number of successful RP tokens issued for OAuth Logon Certificate Requests")
      oAuthPasswordGrantRequestFailures := some (prometheus.NewDesc
        (prometheus.BuildFQName types.Namespace Name "oauth_password_grant_requests_failure_total")
        "Total number of failed OAuth Password Grant Requests")
      oAuthPasswordGrantRequests := some (prometheus.NewDesc
        (prometheus.BuildFQName types.Namespace Name "oauth_password_grant_requests_success_total")
        "Total number of successful OAuth Password Grant Requests")
      oAuthTokenRequests := some (prometheus.NewDesc
        (prometheus.BuildFQName types.Namespace Name "oauth_token_requests_success_total")
        "Total number of successful RP tokens issued over OAuth protocol")
      samlPTokenRequests := some (prometheus.NewDesc
        (prometheus.BuildFQName types.Namespace Name "samlp_token_requests_success_total")
        "Total number of successful RP tokens issued over SAML-P protocol")
      ssoAuthenticationFailures := some (prometheus.NewDesc
        (prometheus.BuildFQName types.Namespace Name "sso_authentications_failure_total")
        "Total number of failed SSO authentications")
      ssoAuthentications := some (prometheus.NewDesc
        (prometheus.BuildFQName types.Namespace Name "sso_authentications_success_total")
        "Total number of successful SSO authentications")
      wsFedTokenRequests := some (prometheus.NewDesc
        (prometheus.BuildFQName types.Namespace Name "wsfed_token_requests_success_total")
        "Total number of successful RP tokens issued over WS-Fed protocol")
      wsTrustTokenRequests := some (prometheus.NewDesc
        (prometheus.BuildFQName types.Namespace Name "wstrust_token_requests_success_total")
        "Total number of successful RP tokens issued over WS-Trust protocol")
      upAuthenticationFailures := some (prometheus.NewDesc
        (prometheus.BuildFQName types.Namespace Name "userpassword_authentications_failure_total")
        "Total number of failed AD U/P authentications")
      upAuthentications := some (prometheus.NewDesc
        (prometheus.BuildFQName types.Namespace Name "userpassword_authentications_success_total")
        "Total number of successful AD U/P authentications")
      externalAuthenticationFailures := some (prometheus.NewDesc
        (prometheus.BuildFQName types.Namespace Name "external_authentications_failure_total")
        "Total number of failed authentications from external MFA providers")
      externalAuthentications := some (prometheus.NewDesc
        (prometheus.BuildFQName types.Namespace Name "external_authentications_success_total")
        "Total number of successful authentications from external MFA providers")
      artifactDBFailures := some (prometheus.NewDesc
        (prometheus.BuildFQName types.Namespace Name "db_artifact_failure_total")
        "Total number of failures connecting to the artifact database")
      avgArtifactDBQueryTime := some (prometheus.NewDesc
        (prometheus.BuildFQName types.Namespace Name "db_artifact_query_time_seconds_total")
        "Accumulator of time taken for an artifact database query")
      configDBFailures := some (prometheus.NewDesc
        (prometheus.BuildFQName types.Namespace Name "db_config_failure_total")
        "Total number of failures connecting to the configuration database")
      avgConfigDBQueryTime := some (prometheus.NewDesc
        (prometheus.BuildFQName types.Namespace Name "db_config_query_time_seconds_total")
        "Accumulator of time taken for a configuration database query")
      federationMetadataRequests := some (prometheus.NewDesc
        (prometheus.BuildFQName types.Namespace Name "federation_metadata_requests_total")
        "Total number of Federation Metadata requests") }
  match Pdh.NewCollector .raw "AD FS" osRes with
  | .error e => (c, some (.wrap "failed to create AD FS collector" (.osError e)))
  | .ok p => ({ c with perfDataCollector := some p }, none)

end adfs

namespace adfs

/-- The emission sequence of `Collector.Collect` (the 43 `ch <-
prometheus.MustNewConstMetric(...)` sends, in source order), reading every
value from one decoded record `d` (`c.perfDataObject[0]` at the call site).
The two `Avg...QueryTime` tick counters are scaled by `math.Pow(10, -8)`;
every other counter value passes through unchanged. -/
def emitMetrics (c : Collector) (d : perfDataCounterValues) : List prometheus.Metric :=
  [ prometheus.MustNewConstMetric c.adLoginConnectionFailures .counter d.AdLoginConnectionFailures,
    prometheus.MustNewConstMetric c.certificateAuthentications .counter d.CertificateAuthentications,
    prometheus.MustNewConstMetric c.deviceAuthentications .counter d.DeviceAuthentications,
    prometheus.MustNewConstMetric c.extranetAccountLockouts .counter d.ExtranetAccountLockouts,
    prometheus.MustNewConstMetric c.federatedAuthentications .counter d.FederatedAuthentications,
    prometheus.MustNewConstMetric c.passportAuthentications .counter d.PassportAuthentications,
    prometheus.MustNewConstMetric c.passiveRequests .counter d.PassiveRequests,
    prometheus.MustNewConstMetric c.passwordChangeFailed .counter d.PasswordChangeFailed,
    prometheus.MustNewConstMetric c.passwordChangeSucceeded .counter d.PasswordChangeSucceeded,
    prometheus.MustNewConstMetric c.tokenRequests .counter d.TokenRequests,
    prometheus.MustNewConstMetric c.windowsIntegratedAuthentications .counter d.WindowsIntegratedAuthentications,
    prometheus.MustNewConstMetric c.oAuthAuthZRequests .counter d.OAuthAuthZRequests,
    prometheus.MustNewConstMetric c.oAuthClientAuthentications .counter d.OAuthClientAuthentications,
    prometheus.MustNewConstMetric c.oAuthClientAuthenticationsFailures .counter d.OAuthClientAuthenticationFailures,
    prometheus.MustNewConstMetric c.oAuthClientCredentialsRequestFailures .counter d.OAuthClientCredentialRequestFailures,
    prometheus.MustNewConstMetric c.oAuthClientCredentialsRequests .counter d.OAuthClientCredentialRequests,
    prometheus.MustNewConstMetric c.oAuthClientPrivateKeyJwtAuthenticationFailures .counter d.OAuthClientPrivateKeyJWTAuthenticationFailures,
    prometheus.MustNewConstMetric c.oAuthClientPrivateKeyJwtAuthentications .counter d.OAuthClientPrivateKeyJWTAuthentications,
    prometheus.MustNewConstMetric c.oAuthClientSecretBasicAuthenticationFailures .counter d.OAuthClientBasicAuthenticationFailures,
    prometheus.MustNewConstMetric c.oAuthClientSecretBasicAuthentications .counter d.OAuthClientBasicAuthentications,
    prometheus.MustNewConstMetric c.oAuthClientSecretPostAuthenticationFailures .counter d.OAuthClientSecretPostAuthenticationFailures,
    prometheus.MustNewConstMetric c.oAuthClientSecretPostAuthentications .counter d.OAuthClientSecretPostAuthentications,
    prometheus.MustNewConstMetric c.oAuthClientWindowsIntegratedAuthenticationFailures .counter d.OAuthClientWindowsAuthenticationFailures,
    prometheus.MustNewConstMetric c.oAuthClientWindowsIntegratedAuthentications .counter d.OAuthClientWindowsAuthentications,
    prometheus.MustNewConstMetric c.oAuthLogonCertificateRequestFailures .counter d.OAuthLogonCertRequestFailures,
    prometheus.MustNewConstMetric c.oAuthLogonCertificateTokenRequests .counter d.OAuthLogonCertTokenRequests,
    prometheus.MustNewConstMetric c.oAuthPasswordGrantRequestFailures .counter d.OAuthPasswordGrantRequestFailures,
    prometheus.MustNewConstMetric c.oAuthPasswordGrantRequests .counter d.OAuthPasswordGrantRequests,
    prometheus.MustNewConstMetric c.oAuthTokenRequests .counter d.OAuthTokenRequests,
    prometheus.MustNewConstMetric c.samlPTokenRequests .counter d.SamlPTokenRequests,
    prometheus.MustNewConstMetric c.ssoAuthenticationFailures .counter d.SsoAuthenticationFailures,
    prometheus.MustNewConstMetric c.ssoAuthentications .counter d.SsoAuthentications,
    prometheus.MustNewConstMetric c.wsFedTokenRequests .counter d.WsFedTokenRequests,
    prometheus.MustNewConstMetric c.wsTrustTokenRequests .counter d.WsTrustTokenRequests,
    prometheus.MustNewConstMetric c.upAuthenticationFailures .counter d.UsernamePasswordAuthenticationFailures,
    prometheus.MustNewConstMetric c.upAuthentications .counter d.UsernamePasswordAuthentications,
    prometheus.MustNewConstMetric c.externalAuthenticationFailures .counter d.ExternalAuthNFailures,
    prometheus.MustNewConstMetric c.externalAuthentications .counter d.ExternalAuthentications,
    prometheus.MustNewConstMetric c.artifactDBFailures .counter d.ArtifactDBFailures,
    prometheus.MustNewConstMetric c.avgArtifactDBQueryTime .counter (d.AvgArtifactDBQueryTime * (10 : ℚ) ^ (-8 : ℤ)),
    prometheus.MustNewConstMetric c.configDBFailures .counter d.ConfigDBFailures,
    prometheus.MustNewConstMetric c.avgConfigDBQueryTime .counter (d.AvgConfigDBQueryTime * (10 : ℚ) ^ (-8 : ℤ)),
    prometheus.MustNewConstMetric c.federationMetadataRequests .counter d.FederationMetadataRequests ]

/-- `func (c *Collector) Collect(ch chan<- prometheus.Metric) error`: run the
typed perf-data collection (overwriting `c.perfDataObject`); a collection
error or an empty record slice is returned as a wrapped error with nothing
sent on `ch`; otherwise the 43 metrics are sent, every value read from
`c.perfDataObject[0]`. The result is the updated collector, the sequence of
metrics sent on `ch`, and the returned error. `env` is the OS decode layer
consumed by the typed collector. -/
def Collector.Collect (c : Collector) (env : Nat → Pdh.OsResp perfDataCounterValues) :
    Collector × List prometheus.Metric × Option GoErr :=
  match c.perfDataCollector with
  | none =>
    (c, [], some (.wrap "failed to collect ADFS metrics" (.osError "perf data collector not initialized")))
  | some p =>
    match p.collect env with
    | (p2, .error e) =>
      ({ c with perfDataCollector := some p2 }, [],
        some (.wrap "failed to collect ADFS metrics" e))
    | (p2, .ok rs) =>
      let c2 := { c with perfDataCollector := some p2, perfDataObject := rs }
      match rs with
      | [] => (c2, [], some (.wrap "failed to collect ADFS metrics" types.ErrNoDataUnexpected))
      | d :: _ => (c2, emitMetrics c2 d, none)

/-- `func (c *Collector) Close() error`: calls `c.perfDataCollector.Close()`
(a nil receiver when `Build` never ran) and always returns a nil error. -/
def Collector.Close (c : Collector) : Collector × Option GoErr :=
  ({ c with perfDataCollector := Pdh.closeOpt c.perfDataCollector }, none)

/-- How often this collector's query handle has been released (0 when the
perf-data collector was never created). -/
def Collector.releaseCount (c : Collector) : Nat :=
  match c.perfDataCollector with
  | none => 0
  | some p => p.releases

end adfs

namespace adfs

/-- The perf-data collector state right after a successful `Build` of the
AD FS collector: subscribed to the "AD FS" object under the raw-value
convention, handle open, no release yet, no cached buffer size. -/
def adFSPdhCollector : Pdh.Collector :=
  { counterType := .raw, object := "AD FS" }

/-- One decoded "AD FS" instance record whose raw `PassiveRequests` counter
field is 42 (all other counters at the Go zero value). -/
def rec42 : perfDataCounterValues :=
  { PassiveRequests := 42 }

/-- An OS decode layer with exactly one live instance reporting `rec42`. -/
def env42 : Nat → Pdh.OsResp perfDataCounterValues :=
  fun _ => .ok [rec42]

/-- An AD FS collector constructed with a nil config and built successfully. -/
def builtCollector : Collector :=
  ((New none).Build (.ok ())).1

/-- An OS decode layer reporting zero live instances. -/
def envEmpty : Nat → Pdh.OsResp perfDataCounterValues :=
  fun _ => .ok []

/-- An OS decode layer that fails with a transient provider error. -/
def envOsFailure : Nat → Pdh.OsResp perfDataCounterValues :=
  fun _ => .err "the counter provider is busy"

/-- An OS decode layer that reports "buffer too small" on every attempt. -/
def envNeverFits : Nat → Pdh.OsResp perfDataCounterValues :=
  fun _ => .tooSmall 4096

/-- A second decoded "AD FS" instance record, distinct from `rec42`. -/
def recSecond : perfDataCounterValues :=
  { PassiveRequests := 7 }

/-- An OS decode layer reporting two live instances. -/
def envTwoInstances : Nat → Pdh.OsResp perfDataCounterValues :=
  fun _ => .ok [rec42, recSecond]

end adfs

/-- A synthetic OS decode layer that always reports "buffer too small". -/
def envAlwaysSmall : Nat → Pdh.OsResp Unit :=
  fun _ => .tooSmall 1

/-- A domain collector that succeeded this round with two metric samples. -/
def cpuCollector : Scheduler.DomainResult ℚ :=
  ⟨"cpu", .ok [1, 2]⟩

/-- A domain collector that succeeded this round with one metric sample. -/
def memCollector : Scheduler.DomainResult ℚ :=
  ⟨"memory", .ok [3]⟩

/-- A domain collector whose `Collect` failed this round. -/
def adfsFailing : Scheduler.DomainResult ℚ :=
  ⟨"adfs", .error "no data"⟩

/-- A scrape round over three registered collectors, one of them failing. -/
def roundOfThree : List (Scheduler.DomainResult ℚ) :=
  [cpuCollector, adfsFailing, memCollector]

/-- Claim C1: for the counter object "AD FS" with exactly one live instance
whose raw `PassiveRequests` counter is 42, a successful `Collect` decodes
exactly one typed record with `PassiveRequests = 42` and emits the metric
named `windows_adfs_passive_requests_total` with value 42 and type
counter. -/
theorem C1_adfs_passive_requests_scenario :
    ((adfs.builtCollector.Collect adfs.env42).1.perfDataObject = [adfs.rec42]) ∧
    ((adfs.builtCollector.Collect adfs.env42).1.perfDataObject.length = 1) ∧
    (adfs.rec42.PassiveRequests = 42) ∧
    ((adfs.builtCollector.Collect adfs.env42).2.1.get? 6 =
      some { desc := some { fqName := "windows_adfs_passive_requests_total",
                            help := "Total number of passive (browser-based) requests" },
             valueType := .counter, value := 42 }) ∧
    ((adfs.builtCollector.Collect adfs.env42).2.2 = none) :=
  ⟨rfl, rfl, rfl, rfl, rfl⟩

/-- Claim C2: when the acquisition layer produces zero typed records the
`Collect` call returns an error classified as no-data (propagated, not
swallowed); when it produces N > 0 records, `Collect` overwrites
`perfDataObject` with exactly those N records and returns no error. -/
theorem C2_collect_nodata_or_records (c : adfs.Collector) (p : Pdh.Collector)
    (env : Nat → Pdh.OsResp adfs.perfDataCounterValues)
    (rs : List adfs.perfDataCounterValues) (sz : Nat)
    (hp : c.perfDataCollector = some p)
    (hn : Pdh.negotiate env p.bufSize = .ok (rs, sz)) :
    (rs = [] → ∃ e, (c.Collect env).2.2 = some e ∧ e.isNoData = true) ∧
    (rs ≠ [] → (c.Collect env).1.perfDataObject = rs ∧ (c.Collect env).2.2 = none) := by
  have hcol : p.collect env =
      (if rs.isEmpty then ({ p with bufSize := sz }, .error .noData)
       else ({ p with bufSize := sz }, .ok rs)) := by
    unfold Pdh.Collector.collect
    rw [hn]
  constructor
  · rintro rfl
    refine ⟨.wrap "failed to collect ADFS metrics" .noData, ?_, rfl⟩
    simp [adfs.Collector.Collect, hp, hcol]
  · intro hne
    cases rs with
    | nil => exact absurd rfl hne
    | cons d tl =>
      simp [adfs.Collector.Collect, hp, hcol]

/-- Witness for C2: a built AD FS collector facing an OS layer with zero
live instances returns a no-data-classified error. -/
theorem C2_collect_nodata_or_records_witness :
    ∃ e, (adfs.builtCollector.Collect adfs.envEmpty).2.2 = some e ∧ e.isNoData = true :=
  (C2_collect_nodata_or_records adfs.builtCollector adfs.adFSPdhCollector
    adfs.envEmpty [] 0 rfl rfl).1 rfl

/-- Claim C3: in the emission sequence every raw-marked counter value passes
through unchanged, while the two formatted tick counters
(`AvgArtifactDBQueryTime`, `AvgConfigDBQueryTime`) are scaled by exactly
10^-8 — i.e. divided by 10^8 to yield seconds — with the scale factor a
static constant of the emission code, independent of the record and the
collector state. -/
theorem C3_value_scaling_policy (c : adfs.Collector) (d : adfs.perfDataCounterValues) :
    (adfs.emitMetrics c d).map prometheus.Metric.value =
      [d.AdLoginConnectionFailures,
       d.CertificateAuthentications,
       d.DeviceAuthentications,
       d.ExtranetAccountLockouts,
       d.FederatedAuthentications,
       d.PassportAuthentications,
       d.PassiveRequests,
       d.PasswordChangeFailed,
       d.PasswordChangeSucceeded,
       d.TokenRequests,
       d.WindowsIntegratedAuthentications,
       d.OAuthAuthZRequests,
       d.OAuthClientAuthentications,
       d.OAuthClientAuthenticationFailures,
       d.OAuthClientCredentialRequestFailures,
       d.OAuthClientCredentialRequests,
       d.OAuthClientPrivateKeyJWTAuthenticationFailures,
       d.OAuthClientPrivateKeyJWTAuthentications,
       d.OAuthClientBasicAuthenticationFailures,
       d.OAuthClientBasicAuthentications,
       d.OAuthClientSecretPostAuthenticationFailures,
       d.OAuthClientSecretPostAuthentications,
       d.OAuthClientWindowsAuthenticationFailures,
       d.OAuthClientWindowsAuthentications,
       d.OAuthLogonCertRequestFailures,
       d.OAuthLogonCertTokenRequests,
       d.OAuthPasswordGrantRequestFailures,
       d.OAuthPasswordGrantRequests,
       d.OAuthTokenRequests,
       d.SamlPTokenRequests,
       d.SsoAuthenticationFailures,
       d.SsoAuthentications,
       d.WsFedTokenRequests,
       d.WsTrustTokenRequests,
       d.UsernamePasswordAuthenticationFailures,
       d.UsernamePasswordAuthentications,
       d.ExternalAuthNFailures,
       d.ExternalAuthentications,
       d.ArtifactDBFailures,
       d.AvgArtifactDBQueryTime / 10 ^ 8,
       d.ConfigDBFailures,
       d.AvgConfigDBQueryTime / 10 ^ 8,
       d.FederationMetadataRequests] := by
  simp [adfs.emitMetrics, prometheus.MustNewConstMetric]
  exact ⟨by ring, by ring⟩

/-- Claim C4: `Close` is idempotent and total — it never returns an error,
calling it twice changes nothing after the first call, it releases the
query handle at most once, and calling it on a collector that was never
built (nil perf-data collector) succeeds without any release. -/
theorem C4_close_idempotent (c : adfs.Collector) (cfg : Option adfs.Config) :
    ((c.Close).2 = none) ∧
    (((c.Close).1.Close).2 = none) ∧
    (((c.Close).1.Close).1 = (c.Close).1) ∧
    ((c.Close).1.releaseCount ≤ c.releaseCount + 1) ∧
    ((adfs.New cfg).Close.2 = none) ∧
    ((adfs.New cfg).Close.1.releaseCount = 0) := by
  refine ⟨rfl, rfl, ?_, ?_, rfl, rfl⟩
  · cases hc : c.perfDataCollector with
    | none => simp [adfs.Collector.Close, Pdh.closeOpt, hc]
    | some p =>
      simp [adfs.Collector.Close, Pdh.closeOpt, hc, Pdh.Collector.close]
      split <;> simp_all
  · cases hc : c.perfDataCollector with
    | none => simp [adfs.Collector.Close, Pdh.closeOpt, adfs.Collector.releaseCount, hc]
    | some p =>
      simp [adfs.Collector.Close, Pdh.closeOpt, adfs.Collector.releaseCount, hc,
        Pdh.Collector.close]
      split <;> simp_all

/-- Claim C5: the buffer negotiator issues at most 2 decode attempts per
collection, and an OS layer that reports "buffer too small" on every
attempt makes the negotiation end in a bounded `DecodeError`, never an
unbounded retry. -/
theorem C5_buffer_negotiator_bounded {α : Type} (env : Nat → Pdh.OsResp α) (buf : Nat) :
    ((Pdh.negotiateWithCount env buf).2 ≤ 2) ∧
    ((∀ n, ∃ r, env n = Pdh.OsResp.tooSmall r) →
      Pdh.negotiate env buf = .error .decodeError) := by
  constructor
  · unfold Pdh.negotiateWithCount
    cases hb : env buf with
    | ok rs => simp
    | err m => simp
    | tooSmall req =>
      cases hr : env req with
      | ok rs => simp [hr]
      | err m => simp [hr]
      | tooSmall req2 => simp [hr]
  · intro h
    obtain ⟨r, hr⟩ := h buf
    obtain ⟨r2, hr2⟩ := h r
    unfold Pdh.negotiate Pdh.negotiateWithCount
    simp [hr, hr2]

/-- Witness for C5: the synthetic always-too-small OS layer yields a
`DecodeError` after at most 2 attempts. -/
theorem C5_buffer_negotiator_bounded_witness :
    (Pdh.negotiate envAlwaysSmall 0 = .error .decodeError) ∧
    ((Pdh.negotiateWithCount envAlwaysSmall 0).2 ≤ 2) :=
  ⟨(C5_buffer_negotiator_bounded envAlwaysSmall 0).2 (fun _ => ⟨1, rfl⟩),
    (C5_buffer_negotiator_bounded envAlwaysSmall 0).1⟩

/-- Helper: a metric emitted by any collector whose round succeeded is in
the merged scrape output. -/
theorem Scheduler.mem_scrape_metrics_of_ok {μ : Type}
    (cs : List (Scheduler.DomainResult μ)) (d : Scheduler.DomainResult μ)
    (ms : List μ) (m : μ)
    (hd : d ∈ cs) (hok : d.result = .ok ms) (hm : m ∈ ms) :
    m ∈ (Scheduler.scrape cs).metrics := by
  induction cs with
  | nil => cases hd
  | cons c tl ih =>
    rcases List.mem_cons.mp hd with rfl | htl
    · simp [Scheduler.scrape, hok]
      left
      exact hm
    · have hmem := ih htl
      simp [Scheduler.scrape] at hmem ⊢
      cases hres : c.result with
      | ok ms2 =>
        simp [hres]
        right
        exact hmem
      | error r =>
        simp [hres]
        exact hmem

/-- Claim C6: in a scrape round where one collector's `Collect` errors, the
merged output still contains every metric of every non-failing collector,
the failing collector is recorded as a per-round failure with its specific
reason, and the scrape as a whole still succeeds. -/
theorem C6_scheduler_isolation {μ : Type} (cs : List (Scheduler.DomainResult μ))
    (f : Scheduler.DomainResult μ) (r : String)
    (hf : f ∈ cs) (hr : f.result = .error r) :
    ((Scheduler.scrape cs).scrapeSuccess = true) ∧
    ((f.name, r) ∈ (Scheduler.scrape cs).failures) ∧
    (∀ d ∈ cs, ∀ ms, d.result = .ok ms → ∀ m ∈ ms, m ∈ (Scheduler.scrape cs).metrics) := by
  refine ⟨rfl, ?_, ?_⟩
  · simp [Scheduler.scrape, List.mem_filterMap]
    exact ⟨f, hf, by simp [hr]⟩
  · intro d hd ms hok m hm
    exact Scheduler.mem_scrape_metrics_of_ok cs d ms m hd hok hm

/-- Witness for C6: a round of three collectors, one always failing — the
scrape succeeds, records the failure with its reason, and keeps the other
two collectors' metrics. -/
theorem C6_scheduler_isolation_witness :
    ((Scheduler.scrape roundOfThree).scrapeSuccess = true) ∧
    (("adfs", "no data") ∈ (Scheduler.scrape roundOfThree).failures) ∧
    ((1 : ℚ) ∈ (Scheduler.scrape roundOfThree).metrics) ∧
    ((3 : ℚ) ∈ (Scheduler.scrape roundOfThree).metrics) := by
  have h := C6_scheduler_isolation roundOfThree adfsFailing "no data"
    (List.mem_cons_of_mem _ (List.mem_cons_self _ _)) rfl
  refine ⟨h.1, h.2.1, ?_, ?_⟩
  · exact h.2.2 cpuCollector (List.mem_cons_self _ _) [1, 2] rfl 1 (List.mem_cons_self _ _)
  · exact h.2.2 memCollector
      (List.mem_cons_of_mem _ (List.mem_cons_of_mem _ (List.mem_cons_self _ _)))
      [3] rfl 3 (List.mem_cons_self _ _)

/-- Claim C7: every acquisition-layer failure (collection error, empty
result, decode problem) is returned from `Collect` as an error value —
wrapped with the collector's message — rather than raised as a panic; the
embedding of `Collect` is a total function, so no input crashes it. -/
theorem C7_collect_errors_as_values (c : adfs.Collector) (p : Pdh.Collector)
    (env : Nat → Pdh.OsResp adfs.perfDataCounterValues) (e0 : GoErr)
    (hp : c.perfDataCollector = some p)
    (hfail : (p.collect env).2 = .error e0) :
    (c.Collect env).2.2 = some (.wrap "failed to collect ADFS metrics" e0) := by
  rcases hcol : p.collect env with ⟨p2, res⟩
  rw [hcol] at hfail
  simp at hfail
  subst hfail
  simp [adfs.Collector.Collect, hp, hcol]

/-- Witness for C7: an OS layer failing with a transient provider error
makes `Collect` return the wrapped error value. -/
theorem C7_collect_errors_as_values_witness :
    (adfs.builtCollector.Collect adfs.envOsFailure).2.2 =
      some (.wrap "failed to collect ADFS metrics"
        (.osError "the counter provider is busy")) :=
  C7_collect_errors_as_values adfs.builtCollector adfs.adFSPdhCollector
    adfs.envOsFailure (.osError "the counter provider is busy") rfl rfl

/-- Claim C8: `Collect` is atomic with respect to the metric sink — whenever
it returns a non-nil error, the sequence of metrics sent on the channel
during that call is empty. -/
theorem C8_no_emission_on_error (c : adfs.Collector)
    (env : Nat → Pdh.OsResp adfs.perfDataCounterValues) (e : GoErr)
    (h : (c.Collect env).2.2 = some e) :
    (c.Collect env).2.1 = [] := by
  unfold adfs.Collector.Collect at h ⊢
  cases hc : c.perfDataCollector with
  | none => simp [hc]
  | some p =>
    rcases hcol : p.collect env with ⟨p2, res⟩
    cases res with
    | error e2 => simp [hc, hcol]
    | ok rs =>
      cases rs with
      | nil => simp [hc, hcol]
      | cons d tl =>
        rw [hc] at h
        simp [hcol] at h

/-- Witness for C8: an OS layer that never fits the buffer makes `Collect`
fail with zero metrics written to the sink. -/
theorem C8_no_emission_on_error_witness :
    (adfs.builtCollector.Collect adfs.envNeverFits).2.1 = [] :=
  C8_no_emission_on_error adfs.builtCollector adfs.envNeverFits
    (.wrap "failed to collect ADFS metrics" .decodeError) rfl

/-- Claim C9: on every successful `Collect` of the AD FS collector exactly 43
metrics are emitted — one per declared descriptor field, in the fixed source
order of the emission sequence, all with type counter — and every emitted
value comes from the first decoded record only, so additional instance
records returned by the acquisition layer are silently ignored. -/
theorem C9_emits_43_counters_from_first_record (c : adfs.Collector)
    (p p2 : Pdh.Collector) (env : Nat → Pdh.OsResp adfs.perfDataCounterValues)
    (d : adfs.perfDataCounterValues) (rest : List adfs.perfDataCounterValues)
    (hp : c.perfDataCollector = some p)
    (hcol : p.collect env = (p2, .ok (d :: rest))) :
    ((c.Collect env).2.1.length = 43) ∧
    (∀ m ∈ (c.Collect env).2.1, m.valueType = .counter) ∧
    ((c.Collect env).2.1.map prometheus.Metric.desc =
      [c.adLoginConnectionFailures,
       c.certificateAuthentications,
       c.deviceAuthentications,
       c.extranetAccountLockouts,
       c.federatedAuthentications,
       c.passportAuthentications,
       c.passiveRequests,
       c.passwordChangeFailed,
       c.passwordChangeSucceeded,
       c.tokenRequests,
       c.windowsIntegratedAuthentications,
       c.oAuthAuthZRequests,
       c.oAuthClientAuthentications,
       c.oAuthClientAuthenticationsFailures,
       c.oAuthClientCredentialsRequestFailures,
       c.oAuthClientCredentialsRequests,
       c.oAuthClientPrivateKeyJwtAuthenticationFailures,
       c.oAuthClientPrivateKeyJwtAuthentications,
       c.oAuthClientSecretBasicAuthenticationFailures,
       c.oAuthClientSecretBasicAuthentications,
       c.oAuthClientSecretPostAuthenticationFailures,
       c.oAuthClientSecretPostAuthentications,
       c.oAuthClientWindowsIntegratedAuthenticationFailures,
       c.oAuthClientWindowsIntegratedAuthentications,
       c.oAuthLogonCertificateRequestFailures,
       c.oAuthLogonCertificateTokenRequests,
       c.oAuthPasswordGrantRequestFailures,
       c.oAuthPasswordGrantRequests,
       c.oAuthTokenRequests,
       c.samlPTokenRequests,
       c.ssoAuthenticationFailures,
       c.ssoAuthentications,
       c.wsFedTokenRequests,
       c.wsTrustTokenRequests,
       c.upAuthenticationFailures,
       c.upAuthentications,
       c.externalAuthenticationFailures,
       c.externalAuthentications,
       c.artifactDBFailures,
       c.avgArtifactDBQueryTime,
       c.configDBFailures,
       c.avgConfigDBQueryTime,
       c.federationMetadataRequests]) ∧
    ((c.Collect env).2.1.map prometheus.Metric.value =
      (adfs.emitMetrics c d).map prometheus.Metric.value) ∧
    ((c.Collect env).2.2 = none) := by
  have hcollect : c.Collect env =
      ({ c with perfDataCollector := some p2, perfDataObject := d :: rest },
        adfs.emitMetrics
          { c with perfDataCollector := some p2, perfDataObject := d :: rest } d,
        none) := by
    unfold adfs.Collector.Collect
    rw [hp]
    simp [hcol]
  rw [hcollect]
  refine ⟨rfl, ?_, ?_, ?_, rfl⟩
  · intro m hm
    simp [adfs.emitMetrics, prometheus.MustNewConstMetric] at hm
    rcases hm with h | h | h | h | h | h | h | h | h | h | h | h | h | h | h | h | h | h | h | h | h | h | h | h | h | h | h | h | h | h | h | h | h | h | h | h | h | h | h | h | h | h | h <;>
      subst h <;> rfl
  · simp [adfs.emitMetrics, prometheus.MustNewConstMetric]
  · simp [adfs.emitMetrics, prometheus.MustNewConstMetric]

/-- Witness for C9: with two live instance records the collector still emits
exactly 43 counter metrics, all read from the first record, and no error. -/
theorem C9_emits_43_counters_from_first_record_witness :
    ((adfs.builtCollector.Collect adfs.envTwoInstances).2.1.length = 43) ∧
    ((adfs.builtCollector.Collect adfs.envTwoInstances).2.1.map prometheus.Metric.value =
      (adfs.emitMetrics adfs.builtCollector adfs.rec42).map prometheus.Metric.value) ∧
    ((adfs.builtCollector.Collect adfs.envTwoInstances).2.2 = none) := by
  have h := C9_emits_43_counters_from_first_record adfs.builtCollector
    adfs.adFSPdhCollector adfs.adFSPdhCollector adfs.envTwoInstances
    adfs.rec42 [adfs.recSecond] rfl rfl
  exact ⟨h.1, h.2.2.2.1, h.2.2.2.2⟩

/-- Claim C10: `New` never fails and performs no OS interaction — a nil
config pointer yields a collector holding `ConfigDefaults`, a non-nil config
is copied, and every descriptor field as well as the perf-data collector
stays unset (nil) until `Build`. -/
theorem C10_new_pure_construction (cfg : adfs.Config) (copt : Option adfs.Config) :
    ((adfs.New none).config = adfs.ConfigDefaults) ∧
    ((adfs.New (some cfg)).config = cfg) ∧
    ((adfs.New copt).perfDataCollector = none) ∧
    ((adfs.New copt).perfDataObject = []) ∧
    ((adfs.New copt).adLoginConnectionFailures = none) ∧
    ((adfs.New copt).artifactDBFailures = none) ∧
    ((adfs.New copt).avgArtifactDBQueryTime = none) ∧
    ((adfs.New copt).avgConfigDBQueryTime = none) ∧
    ((adfs.New copt).certificateAuthentications = none) ∧
    ((adfs.New copt).configDBFailures = none) ∧
    ((adfs.New copt).deviceAuthentications = none) ∧
    ((adfs.New copt).externalAuthenticationFailures = none) ∧
    ((adfs.New copt).externalAuthentications = none) ∧
    ((adfs.New copt).extranetAccountLockouts = none) ∧
    ((adfs.New copt).federatedAuthentications = none) ∧
    ((adfs.New copt).federationMetadataRequests = none) ∧
    ((adfs.New copt).oAuthAuthZRequests = none) ∧
    ((adfs.New copt).oAuthClientAuthentications = none) ∧
    ((adfs.New copt).oAuthClientAuthenticationsFailures = none) ∧
    ((adfs.New copt).oAuthClientCredentialsRequestFailures = none) ∧
    ((adfs.New copt).oAuthClientCredentialsRequests = none) ∧
    ((adfs.New copt).oAuthClientPrivateKeyJwtAuthenticationFailures = none) ∧
    ((adfs.New copt).oAuthClientPrivateKeyJwtAuthentications = none) ∧
    ((adfs.New copt).oAuthClientSecretBasicAuthenticationFailures = none) ∧
    ((adfs.New copt).oAuthClientSecretBasicAuthentications = none) ∧
    ((adfs.New copt).oAuthClientSecretPostAuthenticationFailures = none) ∧
    ((adfs.New copt).oAuthClientSecretPostAuthentications = none) ∧
    ((adfs.New copt).oAuthClientWindowsIntegratedAuthenticationFailures = none) ∧
    ((adfs.New copt).oAuthClientWindowsIntegratedAuthentications = none) ∧
    ((adfs.New copt).oAuthLogonCertificateRequestFailures = none) ∧
    ((adfs.New copt).oAuthLogonCertificateTokenRequests = none) ∧
    ((adfs.New copt).oAuthPasswordGrantRequestFailures = none) ∧
    ((adfs.New copt).oAuthPasswordGrantRequests = none) ∧
    ((adfs.New copt).oAuthTokenRequests = none) ∧
    ((adfs.New copt).passiveRequests = none) ∧
    ((adfs.New copt).passportAuthentications = none) ∧
    ((adfs.New copt).passwordChangeFailed = none) ∧
    ((adfs.New copt).passwordChangeSucceeded = none) ∧
    ((adfs.New copt).samlPTokenRequests = none) ∧
    ((adfs.New copt).ssoAuthenticationFailures = none) ∧
    ((adfs.New copt).ssoAuthentications = none) ∧
    ((adfs.New copt).tokenRequests = none) ∧
    ((adfs.New copt).upAuthenticationFailures = none) ∧
    ((adfs.New copt).upAuthentications = none) ∧
    ((adfs.New copt).windowsIntegratedAuthentications = none) ∧
    ((adfs.New copt).wsFedTokenRequests = none) ∧
    ((adfs.New copt).wsTrustTokenRequests = none) :=
  ⟨rfl, rfl, rfl, rfl, rfl, rfl, rfl, rfl, rfl, rfl, rfl, rfl, rfl, rfl, rfl, rfl, rfl, rfl, rfl, rfl, rfl, rfl, rfl, rfl, rfl, rfl, rfl, rfl, rfl, rfl, rfl, rfl, rfl, rfl, rfl, rfl, rfl, rfl, rfl, rfl, rfl, rfl, rfl, rfl, rfl, rfl, rfl⟩
